import Mathlib

/-!
Verification development for the snapd-seed-glue seed-reconciliation engine.

The Go sources are shallowly embedded: pure fragments become Lean
functions, the store client / filesystem / YAML encoder are external
collaborators modelled as explicit inputs, Go byte strings become `String`
or `List Char`, Go `int` becomes `Int`, and `float64` quantities that the
program only ever combines with exact dyadic values are modelled as `ℚ`.
-/

namespace SnapdSeedGlue

/-- Substring test: `strContains s sub` models Go `strings.Contains(s, sub)`. -/
def strContains (s sub : String) : Bool :=
  decide (sub.toList <:+: s.toList)

/-- Model of `store.CurrentSnap` restricted to the fields the program reads:
`InstanceName`, `SnapID`, `Revision.N` and `TrackingChannel`. -/
structure CurrentSnap where
  instanceName : String
  snapID : String
  revisionN : Int
  trackingChannel : String
deriving DecidableEq

/-- Model of `removeSnapFromCurrentSnaps` (utils.go): scans `currentSnaps`
and deletes the first element whose `Revision` equals `revision`; the
`snapName` argument is never consulted. -/
def removeSnapFromCurrentSnaps (snapName : String) (revision : Int) :
    List CurrentSnap → List CurrentSnap
  | [] => []
  | c :: rest =>
    if c.revisionN = revision then rest
    else c :: removeSnapFromCurrentSnaps snapName revision rest

/-- Model of `isSnapInCurrentSnaps` (utils.go): first entry whose
`InstanceName` matches; returns the found flag and that entry's revision
(the Go zero `snap.Revision{}` gives `0` when absent). -/
def isSnapInCurrentSnaps (snapName : String) : List CurrentSnap → Bool × Int
  | [] => (false, 0)
  | c :: rest =>
    if c.instanceName = snapName then (true, c.revisionN)
    else isSnapInCurrentSnaps snapName rest

/-- Index of the last `'_'` in a byte string, modelling
`strings.LastIndex(fileName, "_")`; `none` models the result `-1`. -/
def lastUnderscoreIdx : List Char → Option Nat
  | [] => none
  | c :: cs =>
    match lastUnderscoreIdx cs with
    | some i => some (i + 1)
    | none => if c = '_' then some 0 else none

/-- Model of `extractRevisionFromFile` (utils.go): everything after the
last underscore, with a trailing `.snap` or `.assert` stripped; other
suffixes are returned unchanged, and a name without `_` gives `""`. -/
def extractRevisionFromFile (fileName : List Char) : List Char :=
  match lastUnderscoreIdx fileName with
  | none => []
  | some i =>
    let revisionWithSuffix := fileName.drop (i + 1)
    if (".snap").toList.isSuffixOf revisionWithSuffix then
      revisionWithSuffix.take (revisionWithSuffix.length - 5)
    else if (".assert").toList.isSuffixOf revisionWithSuffix then
      revisionWithSuffix.take (revisionWithSuffix.length - 7)
    else revisionWithSuffix

/-- The pattern removed by `updateSeedYaml`'s channel normalisation. -/
def latestSlash : List Char := ("latest/").toList

/-- Model of `strings.Replace(s, "latest/", "", -1)`: every non-overlapping
occurrence of `latest/` is removed, scanning left to right (the first
pattern spells out the prefix test against `latest/`). -/
def stripLatest : List Char → List Char
  | 'l' :: 'a' :: 't' :: 'e' :: 's' :: 't' :: '/' :: rest => stripLatest rest
  | c :: rest => c :: stripLatest rest
  | [] => []

/-- One record of the rewritten `seed.yaml` `snaps:` list. -/
structure SeedEntry where
  name : String
  channel : String
  file : String
deriving DecidableEq

/-- Model of the entry-building loop of `updateSeedYaml` (the YAML
serialisation itself is an external library call): each current snap
becomes `{name, channel, file}` where the channel is the tracking channel
with `strings.Replace(…, "latest/", "", -1)` applied. -/
def updateSeedYamlEntries (currentSnaps : List CurrentSnap) : List SeedEntry :=
  currentSnaps.map fun snapInfo =>
    { name := snapInfo.instanceName
      channel := String.mk (stripLatest snapInfo.trackingChannel.toList)
      file := snapInfo.instanceName ++ ("_") ++ toString snapInfo.revisionN ++ (".snap") }

/-- Value of one assertion header, as seen through Go's
`map[string]interface{}`: either a plain string or a nested ("complex")
structure.  A complex value is carried as the list of lines the external
YAML encoder produces for it (the encoder itself is a library collaborator;
only the post-processing in `serializeComplexField` is this repository's
code). -/
inductive HeaderValue where
  | str (s : String)
  | complex (yamlLines : List String)
deriving DecidableEq

/-- Association-list reading of a Go header map: `headers[key]`. -/
def lookupH (headers : List (String × HeaderValue)) (key : String) : Option HeaderValue :=
  match headers.find? (fun p => p.1 == key) with
  | some p => some p.2
  | none => none

/-- Go `delete(headers, key)`. -/
def eraseKey (headers : List (String × HeaderValue)) (key : String) :
    List (String × HeaderValue) :=
  headers.filter (fun p => p.1 ≠ key)

/-- Comma-ok string type assertion on a header value: `v, ok := h[k].(string)`
succeeding with a string. -/
def getStrHeader (headers : List (String × HeaderValue)) (key : String) : Option String :=
  match lookupH headers key with
  | some (HeaderValue.str s) => some s
  | _ => none

/-- Model of a fetched `asserts.Assertion`: its header map, body bytes and
signature bytes. -/
structure Assertion where
  headers : List (String × HeaderValue)
  body : String
  signature : String
deriving DecidableEq

/-- The per-type header order table of `writeAssertion` (assertions.go);
an unknown type has no entry in the Go map, giving the empty list. -/
def fieldOrder (assertionType : String) : List String :=
  if assertionType = "account-key" then
    ["type", "authority-id", "revision", "public-key-sha3-384",
     "account-id", "name", "since", "body-length", "sign-key-sha3-384"]
  else if assertionType = "account" then
    ["type", "authority-id", "revision", "account-id", "display-name",
     "timestamp", "username", "validation", "sign-key-sha3-384"]
  else if assertionType = "snap-declaration" then
    ["type", "format", "authority-id", "revision", "series", "snap-id",
     "aliases", "auto-aliases", "plugs", "publisher-id", "slots",
     "snap-name", "timestamp", "sign-key-sha3-384"]
  else if assertionType = "snap-revision" then
    ["type", "authority-id", "snap-sha3-384", "developer-id",
     "provenance", "snap-id", "snap-revision", "snap-size",
     "timestamp", "sign-key-sha3-384"]
  else []

/-- Model of `isComplexField` (assertions.go). -/
def isComplexField (key : String) : Bool :=
  key == "aliases" || key == "auto-aliases" || key == "plugs" ||
  key == "slots" || key == "allow-installation" || key == "allow-connection"

/-- Lines the external YAML encoder yields for a header value (output of
`strings.Split(buf.String(), "\n")` in `serializeComplexField`).  For a
plain string the encoder emits the value and a final newline. -/
def yamlLinesOf : HeaderValue → List String
  | HeaderValue.str s => [s, ""]
  | HeaderValue.complex yamlLines => yamlLines

/-- Go `%s` formatting of a header value; for non-string values the exact
Go rendering is irrelevant to every claim and is abstracted as the joined
lines. -/
def asGoString : HeaderValue → String
  | HeaderValue.str s => s
  | HeaderValue.complex yamlLines => String.intercalate "\n" yamlLines

/-- Go `strings.Cut(line, "- ")`: text before the first occurrence, text
after it, and whether it was found. -/
def goCutDash (line : String) : String × String × Bool :=
  match line.splitOn "- " with
  | [] => (line, "", false)
  | [x] => (x, "", false)
  | x :: rest => (x, String.intercalate "- " rest, true)

/-- Per-line post-processing of `serializeComplexField` (assertions.go):
unquote the YAML sentinels, re-indent, and split list items keyed with a
dash. -/
def processComplexLine (line : String) : String :=
  if line = "" then "" else
  let l := ((line.replace "\x22true\x22" "true").replace "\x22false\x22" "false").replace
    "\x27*\x27" "*"
  if (l.trim.startsWith "-") && strContains l ":" then
    match goCutDash l with
    | (before, after, true) =>
      ("  ") ++ before ++ ("-\n") ++
        (if after ≠ "" then ("    ") ++ before ++ after ++ ("\n") else "")
    | (_, _, false) => ("  ") ++ l ++ ("-\n")
  else if l.trim ≠ "" then ("  ") ++ l ++ ("\n")
  else ""

/-- Model of `serializeComplexField` on the encoder's lines. -/
def serializeComplexField (yamlLines : List String) : String :=
  String.join (yamlLines.map processComplexLine)

/-- One iteration of the header loop of `writeAssertion`: `none` models the
`continue` on an absent or empty value, `some text` the bytes written for
`key`. -/
def emitHeader (assertionType : String) (bodyLength : Nat)
    (headers : List (String × HeaderValue)) (key : String) : Option String :=
  match lookupH headers key with
  | none => none
  | some value =>
    if value = HeaderValue.str "" then none
    else some (
      if key = "type" then key ++ (": ") ++ assertionType ++ ("\n")
      else if key = "body-length" && bodyLength > 0 then
        ("body-length: ") ++ toString bodyLength ++ ("\n")
      else if isComplexField key then
        key ++ (":\n") ++ serializeComplexField (yamlLinesOf value)
      else key ++ (": ") ++ asGoString value ++ ("\n"))

/-- The header block of one assertion: the loop over `fieldOrder`. -/
def headersBlock (assertionType : String) (bodyLength : Nat)
    (headers : List (String × HeaderValue)) : String :=
  String.join ((fieldOrder assertionType).filterMap (emitHeader assertionType bodyLength headers))

/-- Keys actually emitted for one assertion, in emission order. -/
def emittedHeaderKeys (assertionType : String) (bodyLength : Nat)
    (headers : List (String × HeaderValue)) : List String :=
  (fieldOrder assertionType).filter (fun key => (emitHeader assertionType bodyLength headers key).isSome)

/-- Everything `writeAssertion` writes after its header adjustments:
headers, a blank line, the body (followed by two newlines) when non-empty,
the signature, and a final newline for every type except `snap-revision`. -/
def writeAssertionCore (assertionType : String) (bodyLength : Nat)
    (headers : List (String × HeaderValue)) (body signature : String) : String :=
  headersBlock assertionType bodyLength headers ++ ("\n") ++
    (if bodyLength > 0 then body ++ ("\n\n") else "") ++
    signature ++
    (if assertionType ≠ "snap-revision" then "\n" else "")

/-- Days from 1970-01-01 of a proleptic-Gregorian date (the arithmetic Go's
`time` package realises); negative before the epoch. -/
def daysFromCivil (y m d : Int) : Int :=
  let yy := if m ≤ 2 then y - 1 else y
  let era := (if 0 ≤ yy then yy else yy - 399) / 400
  let yoe := yy - era * 400
  let doy := (153 * (m + (if 2 < m then -3 else 9)) + 2) / 5 + d - 1
  let doe := yoe * 365 + yoe / 4 - yoe / 100 + doy
  era * 146097 + doe - 719468

/-- Seconds at 2023-12-09T00:00:00Z, `writeAssertion`'s provenance
threshold. -/
def rfcThreshold : ℚ := ((daysFromCivil 2023 12 9 * 86400 : Int) : ℚ)

/-- Seconds of Go's zero `time.Time` (0001-01-01T00:00:00 UTC), the value
`time.Parse` yields alongside an error. -/
def goZeroTimeSecs : ℚ := ((daysFromCivil 1 1 1 * 86400 : Int) : ℚ)

/-- Numeric value of an ASCII digit. -/
def digitVal (c : Char) : Option Nat :=
  if ('0' ≤ c ∧ c ≤ '9') then some (c.toNat - ('0').toNat) else none

/-- Two fixed digits. -/
def parse2 : List Char → Option (Nat × List Char)
  | a :: b :: rest => do
    let x ← digitVal a
    let y ← digitVal b
    some (x * 10 + y, rest)
  | _ => none

/-- Four fixed digits. -/
def parse4 (cs : List Char) : Option (Nat × List Char) := do
  let (hi, r) ← parse2 cs
  let (lo, r2) ← parse2 r
  some (hi * 100 + lo, r2)

/-- One mandatory literal character. -/
def expectChar (c : Char) : List Char → Option (List Char)
  | x :: rest => if x = c then some rest else none
  | _ => none

/-- Leading run of digits. -/
def takeDigits : List Char → List Nat × List Char
  | [] => ([], [])
  | c :: rest =>
    match digitVal c with
    | some d =>
      let (ds, r) := takeDigits rest
      (d :: ds, r)
    | none => ([], c :: rest)

/-- Value of a fractional-second digit run. -/
def fracVal (ds : List Nat) : ℚ :=
  ((ds.foldl (fun acc d => acc * 10 + d) 0 : ℕ) : ℚ) / ((10 ^ ds.length : ℕ) : ℚ)

/-- Trailing zone: `Z` or `±hh:mm`, consuming the whole remainder; the
result is the offset in seconds. -/
def parseZone : List Char → Option ℚ
  | ['Z'] => some (((0 : ℕ) : ℚ))
  | c :: rest =>
    if c = '+' ∨ c = '-' then do
      let (hh, r1) ← parse2 rest
      let r2 ← expectChar ':' r1
      let (mm, r3) ← parse2 r2
      if r3 = [] ∧ hh ≤ 23 ∧ mm ≤ 59 then
        let secs : ℚ := ((hh * 3600 + mm * 60 : ℕ) : ℚ)
        some (if c = '+' then secs else -secs)
      else none
    else none
  | [] => none

/-- Whether a proleptic-Gregorian year is a leap year. -/
def isLeapYear (y : Nat) : Bool :=
  y % 4 == 0 && (y % 100 != 0 || y % 400 == 0)

/-- Day count of a month, as Go's `daysIn`. -/
def daysInMonth (y m : Nat) : Nat :=
  if m = 2 then (if isLeapYear y then 29 else 28)
  else if m = 4 ∨ m = 6 ∨ m = 9 ∨ m = 11 then 30
  else 31

/-- Model of Go `time.Parse(time.RFC3339, s)` restricted to what the
program consumes: `some` is the parsed instant as seconds since the epoch
(UTC), `none` is a parse error.  The accepted shape is
`yyyy-mm-ddThh:mm:ss[.d+](Z|±hh:mm)` with calendar range checks, as Go's
parser enforces for this layout. -/
def goParseRFC3339 (s : String) : Option ℚ := do
  let cs := s.toList
  let (y, r1) ← parse4 cs
  let r2 ← expectChar '-' r1
  let (mo, r3) ← parse2 r2
  let r4 ← expectChar '-' r3
  let (d, r5) ← parse2 r4
  let r6 ← expectChar 'T' r5
  let (h, r7) ← parse2 r6
  let r8 ← expectChar ':' r7
  let (mi, r9) ← parse2 r8
  let r10 ← expectChar ':' r9
  let (sec, r11) ← parse2 r10
  let (frac, r12) ← (match r11 with
    | '.' :: rest =>
      (match takeDigits rest with
       | ([], _) => none
       | (ds, rest2) => some (fracVal ds, rest2))
    | other => some ((((0 : ℕ) : ℚ)), other))
  let offset ← parseZone r12
  if 1 ≤ mo ∧ mo ≤ 12 ∧ 1 ≤ d ∧ d ≤ daysInMonth y mo ∧ h ≤ 23 ∧ mi ≤ 59 ∧ sec ≤ 59 then
    some (((daysFromCivil (y : Int) (mo : Int) (d : Int) * 86400
      + (h : Int) * 3600 + (mi : Int) * 60 + (sec : Int) : Int) : ℚ) + frac - offset)
  else none

/-- Model of `writeAssertion` (assertions.go) as the bytes appended to the
file; `none` models the panic of the unchecked `timestamp.(string)` type
assertion when a `snap-revision` carries a non-string timestamp. -/
def writeAssertion (assertionType : String) (a : Assertion) : Option String :=
  let body := a.body
  let bodyLength := body.length
  if assertionType = "account" ∧ lookupH a.headers ("username") = some (HeaderValue.str "canonical") then
    some ""
  else if assertionType = "snap-revision" then
    match lookupH a.headers ("timestamp") with
    | none => some (writeAssertionCore assertionType bodyLength a.headers body a.signature)
    | some (HeaderValue.str ts) =>
      let parsedSecs := (goParseRFC3339 ts).getD goZeroTimeSecs
      let headers :=
        if parsedSecs ≤ rfcThreshold then eraseKey a.headers ("provenance") else a.headers
      some (writeAssertionCore assertionType bodyLength headers body a.signature)
    | some (HeaderValue.complex _) => none
  else
    some (writeAssertionCore assertionType bodyLength a.headers body a.signature)

/-- Hex digit value, as `encoding/hex` accepts. -/
def hexVal (c : Char) : Option Nat :=
  if ('0' ≤ c ∧ c ≤ '9') then some (c.toNat - ('0').toNat)
  else if ('a' ≤ c ∧ c ≤ 'f') then some (c.toNat - ('a').toNat + 10)
  else if ('A' ≤ c ∧ c ≤ 'F') then some (c.toNat - ('A').toNat + 10)
  else none

/-- Model of Go `hex.DecodeString`: bytes on success, `none` on an odd
length or a non-hex character. -/
def goHexDecode : List Char → Option (List Nat)
  | [] => some []
  | [_] => none
  | a :: b :: rest => do
    let x ← hexVal a
    let y ← hexVal b
    let r ← goHexDecode rest
    some ((x * 16 + y) :: r)

/-- The base64url alphabet (RFC 4648, URL-safe). -/
def b64Alphabet : List Char :=
  ("ABCDEFGHIJKLMNOPQRSTUVWXYZabcdefghijklmnopqrstuvwxyz0123456789-_").toList

/-- Character of one 6-bit group. -/
def b64c (n : Nat) : Char := b64Alphabet.getD n 'A'

/-- Model of Go `base64.RawURLEncoding.EncodeToString` (no padding). -/
def goBase64RawURL : List Nat → List Char
  | [] => []
  | [a] => [b64c (a / 4), b64c (a % 4 * 16)]
  | [a, b] => [b64c (a / 4), b64c (a % 4 * 16 + b / 16), b64c (b % 16 * 4)]
  | a :: b :: c :: rest =>
    [b64c (a / 4), b64c (a % 4 * 16 + b / 16), b64c (b % 16 * 4 + c / 64), b64c (c % 64)]
      ++ goBase64RawURL rest

/-- Fields of `snap.Info` that `downloadAssertions` reads. -/
structure SnapInfo where
  suggestedName : String
  revisionN : Int
  sha3_384 : String
  snapID : String
  publisherID : String
deriving DecidableEq

/-- External assertion fetcher: `storeClient.Assertion(type, key, nil)` as a
function from the assertion type name and primary key to an outcome. -/
def FetchEnv : Type := String → List String → Except String Assertion

/-- Model of `downloadAssertions` (assertions.go).  External effects are
inputs: `createOk` is whether `os.Create` succeeds, `fetch` the store
client.  The outer `Option` models the `writeAssertion` panic; the inner
value is the function's error or, on success, the bytes of the emitted
`.assert` file. -/
def downloadAssertions (fetch : FetchEnv) (snapInfo : SnapInfo) (createOk : Bool) :
    Option (Except String String) :=
  let snapSHA := snapInfo.sha3_384
  let snapID := snapInfo.snapID
  let publisherID := snapInfo.publisherID
  let series := "16"
  if ¬ createOk then some (Except.error ("failed to create assertions file")) else
  match fetch ("snap-declaration") [series, snapID] with
  | Except.error e =>
    some (Except.error (("failed to fetch snap-declaration assertion for snap ")
      ++ snapInfo.suggestedName ++ (": ") ++ e))
  | Except.ok snapDecl =>
    match getStrHeader snapDecl.headers ("sign-key-sha3-384") with
    | none =>
      some (Except.error (("snap-declaration assertion missing sign-key-sha3-384 header for snap ")
        ++ snapInfo.suggestedName))
    | some signKey =>
      if signKey = "" then
        some (Except.error (("snap-declaration assertion missing sign-key-sha3-384 header for snap ")
          ++ snapInfo.suggestedName))
      else
      match fetch ("account-key") [signKey] with
      | Except.error e =>
        some (Except.error (("failed to fetch account-key assertion for snap ")
          ++ snapInfo.suggestedName ++ (": ") ++ e))
      | Except.ok accountKeyAssertion =>
      match fetch ("account") [publisherID] with
      | Except.error e =>
        some (Except.error (("failed to fetch account assertion for snap ")
          ++ snapInfo.suggestedName ++ (": ") ++ e))
      | Except.ok accountAssertion =>
      match goHexDecode snapSHA.toList with
      | none =>
        some (Except.error (("error decoding SHA3-384 hex string for snap ")
          ++ snapInfo.suggestedName))
      | some shaBytes =>
        let revisionKey := String.mk (goBase64RawURL shaBytes) ++ ("/")
        let snapRevFetch := fetch ("snap-revision") [revisionKey]
        do
          let s1 ← writeAssertion ("account-key") accountKeyAssertion
          let s2 ← writeAssertion ("account") accountAssertion
          let s3 ← writeAssertion ("snap-declaration") snapDecl
          let s4 ← (match snapRevFetch with
            | Except.error _ => some ""
            | Except.ok snapRevisionAssertion =>
              writeAssertion ("snap-revision") snapRevisionAssertion)
          some (Except.ok (s1 ++ s2 ++ s3 ++ s4))

/-- Fields of `snap.Info` that the resolver validates and walks. -/
structure StoreInfo where
  snapID : String
  revisionN : Int
  base : String
deriving DecidableEq

/-- Model of `store.SnapActionResult`: the (possibly nil) `Info` pointer;
deltas play no role in the resolver claims. -/
structure SnapActionResult where
  info : Option StoreInfo
deriving DecidableEq

/-- External store client: one `SnapAction` round-trip, keyed by the
current-snap argument (refresh when present, install when absent) and the
requested channel. -/
def StoreEnv : Type := Option CurrentSnap → String → Except String (List SnapActionResult)

/-- Store error text the resolver recognises for "already up to date". -/
def noUpdateMsg : String := "snap has no updates available"

/-- Store error text the resolver recognises for a channel miss. -/
def channelMissMsg : String := "no snap revision available as specified"

/-- The wrapping `fetchOrRefreshSnapInfo` applies to most store errors. -/
def wrapMsg (snapName e : String) : String :=
  ("snap action failed for ") ++ snapName ++ (": ") ++ e

/-- Model of `fetchOrRefreshSnapInfo` (part_000): one store call plus
result validation.  A `snap has no updates available` error on a refresh is
passed through verbatim; any other error is wrapped. -/
def fetchOrRefreshSnapInfo (env : StoreEnv) (snapName : String)
    (currentSnap : Option CurrentSnap) (channel : String) : Except String SnapActionResult :=
  match env currentSnap channel with
  | Except.error e =>
    if strContains e noUpdateMsg && currentSnap.isSome then Except.error e
    else Except.error (wrapMsg snapName e)
  | Except.ok results =>
    match results with
    | [] => Except.error (("no snap info returned for snap ") ++ snapName)
    | r :: _ =>
      match r.info with
      | none => Except.error (("no snap info returned for snap ") ++ snapName)
      | some info =>
        if info.snapID = "" ∨ info.revisionN = 0 then
          Except.error (("invalid snap information for ") ++ snapName
            ++ (": SnapID or Revision is missing"))
        else Except.ok r

/-- Fresh-install branch of `collectSnapDependencies` (part_000, lines
37-48): on a `no snap revision available as specified` error, retry the
install on the fallback channel. -/
def resolveInstallFlow (env : StoreEnv) (snapName channel fallbackChannel : String) :
    Except String SnapActionResult :=
  match fetchOrRefreshSnapInfo env snapName none channel with
  | Except.ok r => Except.ok r
  | Except.error e =>
    if strContains e channelMissMsg then
      fetchOrRefreshSnapInfo env snapName none fallbackChannel
    else Except.error e

/-- Refresh branch of `collectSnapDependencies` (part_000, lines 49-73):
`no updates` retries as an install on the same channel; a channel miss
retries the refresh on the fallback channel, and a `no updates` answer
there retries as an install on the fallback channel. -/
def resolveRefreshFlow (env : StoreEnv) (snapName channel fallbackChannel : String)
    (oldSnap : CurrentSnap) : Except String SnapActionResult :=
  match fetchOrRefreshSnapInfo env snapName (some oldSnap) channel with
  | Except.ok r => Except.ok r
  | Except.error e =>
    if strContains e noUpdateMsg then
      fetchOrRefreshSnapInfo env snapName none channel
    else if strContains e channelMissMsg then
      match fetchOrRefreshSnapInfo env snapName (some oldSnap) fallbackChannel with
      | Except.ok r => Except.ok r
      | Except.error e2 =>
        if strContains e2 noUpdateMsg then
          fetchOrRefreshSnapInfo env snapName none fallbackChannel
        else Except.error e2
    else Except.error e

/-- Store-call selection and error recovery of `collectSnapDependencies`
(part_000, lines 33-73): an absent or incomplete previous snap takes the
install path, a complete one the refresh path. -/
def resolveFetch (env : StoreEnv) (snapName channel fallbackChannel : String)
    (oldSnap : Option CurrentSnap) : Except String SnapActionResult :=
  match oldSnap with
  | none => resolveInstallFlow env snapName channel fallbackChannel
  | some c =>
    if c.snapID = "" ∨ c.revisionN = 0 then
      resolveInstallFlow env snapName channel fallbackChannel
    else resolveRefreshFlow env snapName channel fallbackChannel c

/-- One work item of the resolver (`SnapDetails` in part_000). -/
structure SnapDetails where
  instanceName : String
  channel : String
  currentSnap : CurrentSnap
  result : SnapActionResult
deriving DecidableEq

/-- Process-wide resolver state: `currentSnaps`, plus the two string-keyed
boolean maps modelled as the lists of names set to `true`. -/
structure ResolverState where
  currentSnaps : List CurrentSnap
  requiredSnaps : List String
  processedSnaps : List String
deriving DecidableEq

/-- Go `m[name] = true` on a string-keyed boolean map. -/
def markTrue (names : List String) (n : String) : List String :=
  if n ∈ names then names else names ++ [n]

/-- Per-snap state update and work-item decision of
`collectSnapDependencies` (part_000, lines 75-107), after the store call
succeeded: validate the info, swap the snap into `currentSnaps`, mark it
processed, and either emit a work item (new install or strictly newer
revision) or mark the snap required.  `old` is `findPreviousSnap`'s result:
the previous snap path and parsed current snap, when one was found. -/
def collectStep (st : ResolverState) (snapName channel : String)
    (old : Option (String × CurrentSnap)) (result : SnapActionResult) :
    Except String (ResolverState × List SnapDetails) :=
  match result.info with
  | none =>
    Except.error (("invalid snap information returned for ") ++ snapName
      ++ (": SnapID or Revision is missing"))
  | some info =>
    if info.snapID = "" ∨ info.revisionN = 0 then
      Except.error (("invalid snap information returned for ") ++ snapName
        ++ (": SnapID or Revision is missing"))
    else
      let newSnap : CurrentSnap :=
        { instanceName := snapName, snapID := info.snapID,
          revisionN := info.revisionN, trackingChannel := "" }
      let found := isSnapInCurrentSnaps snapName st.currentSnaps
      let cs1 :=
        if found.1 then removeSnapFromCurrentSnaps snapName found.2 st.currentSnaps
        else st.currentSnaps
      let cs2 := cs1 ++ [newSnap]
      let processed := markTrue st.processedSnaps snapName
      let needsUpdate : Bool :=
        match old with
        | none => true
        | some (oldSnapPath, oldSnap) =>
          oldSnapPath == "" || decide (oldSnap.revisionN < info.revisionN)
      if needsUpdate then
        Except.ok
          ({ currentSnaps := cs2, requiredSnaps := st.requiredSnaps, processedSnaps := processed },
           [{ instanceName := snapName, channel := channel, currentSnap := newSnap,
              result := result }])
      else
        Except.ok
          ({ currentSnaps := cs2, requiredSnaps := markTrue st.requiredSnaps snapName,
             processedSnaps := processed }, [])

/-- Shared progress state of progress.go: global byte counter, last
percentage printed, and the lines emitted so far. -/
structure GlobalProgress where
  globalDownloaded : ℚ
  lastReported : Int
  output : List (Int × String)
deriving DecidableEq

/-- Go's float-to-int conversion (truncation toward zero); on a rational
`num/den` in lowest terms this is the truncating integer division. -/
def goTruncQ (q : ℚ) : Int := Int.tdiv q.num (q.den : Int)

/-- Model of `reportGlobalProgress` (progress.go): percentage is
`int(globalDownloaded/totalSnapSize*80) + 10`, printed whenever it
changes; no upper clamp is applied. -/
def reportGlobalProgress (totalSnapSize : ℚ) (snapName snapVersion : String) (isDelta : Bool)
    (g : GlobalProgress) : GlobalProgress :=
  if totalSnapSize = 0 then g
  else
    let percentage : Int := goTruncQ (g.globalDownloaded / totalSnapSize * 80) + 10
    if percentage ≠ g.lastReported then
      let progressString :=
        (if isDelta then ("Downloading delta for snap ") else ("Downloading snap "))
          ++ snapName ++ (" ") ++ snapVersion
      { globalDownloaded := g.globalDownloaded, lastReported := percentage,
        output := g.output ++ [(percentage, progressString)] }
    else g

/-- Per-download meter state (`ProgressMeter` in progress.go). -/
structure ProgressMeter where
  currentBytes : ℚ
  isDelta : Bool
  snapName : String
  snapVersion : String
  totalSize : ℚ
deriving DecidableEq

/-- Model of `ProgressMeter.Set`. -/
def meterSet (totalSnapSize : ℚ) (pm : ProgressMeter) (g : GlobalProgress) (value : ℚ) :
    ProgressMeter × GlobalProgress :=
  let delta := value - pm.currentBytes
  let pm2 := { pm with currentBytes := value }
  let g2 := { g with globalDownloaded := g.globalDownloaded + delta }
  (pm2, reportGlobalProgress totalSnapSize pm2.snapName pm2.snapVersion pm2.isDelta g2)

/-- Model of `ProgressMeter.Write` on a chunk of `n` bytes. -/
def meterWrite (totalSnapSize : ℚ) (pm : ProgressMeter) (g : GlobalProgress) (n : ℕ) :
    ProgressMeter × GlobalProgress :=
  let delta : ℚ := (n : ℚ)
  let pm2 := { pm with currentBytes := pm.currentBytes + delta }
  let g2 := { g with globalDownloaded := g.globalDownloaded + delta }
  (pm2, reportGlobalProgress totalSnapSize pm2.snapName pm2.snapVersion pm2.isDelta g2)

/-- Model of `ProgressMeter.Finished`. -/
def meterFinished (totalSnapSize : ℚ) (pm : ProgressMeter) (g : GlobalProgress) :
    ProgressMeter × GlobalProgress :=
  let delta := pm.totalSize - pm.currentBytes
  let pm2 := { pm with currentBytes := pm.totalSize }
  let g2 := { g with globalDownloaded := g.globalDownloaded + delta }
  (pm2, reportGlobalProgress totalSnapSize pm2.snapName pm2.snapVersion pm2.isDelta g2)

theorem strContains_iff {s sub : String} : strContains s sub = true ↔ sub.toList <:+: s.toList := by
  simp [strContains]

theorem strContains_wrap {n e sub : String} (h : strContains e sub = true) :
    strContains (wrapMsg n e) sub = true := by
  rw [strContains_iff] at h ⊢
  have h2 : (wrapMsg n e).toList = (("snap action failed for ") ++ n ++ (": ")).toList ++ e.toList := by
    simp [wrapMsg, String.toList, String.data_append]
  rw [h2]
  exact h.trans ((List.suffix_append _ _).isInfix)

theorem strContains_wrap_neg {n e sub : String} (h : strContains (wrapMsg n e) sub = false) :
    strContains e sub = false := by
  cases he : strContains e sub with
  | false => rfl
  | true => rw [strContains_wrap he] at h; exact absurd h (by simp)

theorem isPrefixOf_append_self (p s : List Char) : p.isPrefixOf (p ++ s) = true := by
  exact List.isPrefixOf_iff_prefix.mpr (List.prefix_append p s)

theorem lastUnderscoreIdx_of_not_mem {s : List Char} (h : ('_') ∉ s) :
    lastUnderscoreIdx s = none := by
  induction s with
  | nil => rfl
  | cons c cs ih =>
    have hc : ¬ c = '_' := fun hc => h (hc ▸ List.mem_cons_self c cs)
    have hcs : ('_') ∉ cs := fun hm => h (List.mem_cons_of_mem c hm)
    simp [lastUnderscoreIdx, ih hcs, hc]

theorem lastUnderscoreIdx_append {b : List Char} (a : List Char) (h : ('_') ∉ b) :
    lastUnderscoreIdx (a ++ '_' :: b) = some a.length := by
  induction a with
  | nil => simp [lastUnderscoreIdx, lastUnderscoreIdx_of_not_mem h]
  | cons c cs ih => simp [lastUnderscoreIdx, ih]

/-- C10: `removeSnapFromCurrentSnaps` selects the entry to delete by
revision number alone — it erases the first element whose revision matches,
whatever its instance name; with two snaps sharing revision 5, asking to
remove snap `b` at revision 5 in fact deletes the entry of snap `a`. -/
theorem claimC10_removeByRevisionOnly :
    (∀ (snapName : String) (revision : Int) (cs : List CurrentSnap),
      removeSnapFromCurrentSnaps snapName revision cs
        = cs.eraseP (fun c => c.revisionN == revision)) ∧
    removeSnapFromCurrentSnaps ("b") 5
        [{ instanceName := "a", snapID := "idA", revisionN := 5, trackingChannel := "" },
         { instanceName := "b", snapID := "idB", revisionN := 5, trackingChannel := "" }]
      = [{ instanceName := "b", snapID := "idB", revisionN := 5, trackingChannel := "" }] := by
  constructor
  · intro snapName revision cs
    induction cs with
    | nil => rfl
    | cons c rest ih =>
      by_cases h : c.revisionN = revision <;>
        simp [removeSnapFromCurrentSnaps, List.eraseP_cons, h, ih]
  · decide

/-- C7 counterexample: on `hello_12.foo` the portion after the last
underscore ends in a suffix other than `.snap`/`.assert`, and
`extractRevisionFromFile` returns it unchanged (`12.foo`), not the empty
string the claim requires. -/
theorem claimC7_counterexample :
    extractRevisionFromFile (("hello_12.foo").toList) = ("12.foo").toList ∧
    ("12.foo").toList ≠ ([] : List Char) := by
  constructor
  · decide
  · decide

/-- C7 (amended): `extractRevisionFromFile` returns the substring after
the last underscore with a trailing `.snap` or `.assert` stripped; a
portion ending in any other suffix is returned unchanged (not replaced by
the empty string), and a name without an underscore yields the empty
string. -/
theorem claimC7_amended :
    (∀ (a b : List Char), ('_') ∉ b →
      extractRevisionFromFile (a ++ '_' :: b)
        = (if (".snap").toList.isSuffixOf b then b.take (b.length - 5)
           else if (".assert").toList.isSuffixOf b then b.take (b.length - 7)
           else b)) ∧
    (∀ s : List Char, ('_') ∉ s → extractRevisionFromFile s = []) := by
  constructor
  · intro a b h
    have hidx := lastUnderscoreIdx_append a h
    have hdrop : (a ++ '_' :: b).drop (a.length + 1) = b := by
      have : a ++ '_' :: b = (a ++ ['_']) ++ b := by simp
      rw [this, show a.length + 1 = (a ++ ['_']).length by simp]
      exact List.drop_left _ _
    simp [extractRevisionFromFile, hidx, hdrop]
  · intro s h
    simp [extractRevisionFromFile, lastUnderscoreIdx_of_not_mem h]

theorem claimC7_amended_witness :
    ('_') ∉ ("12.foo").toList ∧
    extractRevisionFromFile (("hello").toList ++ '_' :: ("12.foo").toList)
      = (if (".snap").toList.isSuffixOf (("12.foo").toList) then
           (("12.foo").toList).take ((("12.foo").toList).length - 5)
         else if (".assert").toList.isSuffixOf (("12.foo").toList) then
           (("12.foo").toList).take ((("12.foo").toList).length - 7)
         else ("12.foo").toList) :=
  ⟨by decide, claimC7_amended.1 (("hello").toList) (("12.foo").toList) (by decide)⟩

/-- C8 counterexample: with tracking channel `foo/latest/bar` (no leading
`latest/`), `updateSeedYaml` records channel `foo/bar` — the interior
occurrence of `latest/` is also removed, so the string is not "otherwise
unchanged". -/
theorem claimC8_counterexample :
    updateSeedYamlEntries
        [{ instanceName := "x", snapID := "id", revisionN := 1,
           trackingChannel := "foo/latest/bar" }]
      = [{ name := "x", channel := "foo/bar", file := "x_1.snap" }] ∧
    ("foo/bar" : String) ≠ "foo/latest/bar" := by
  constructor
  · decide
  · decide

/-- C8 (amended): the channel recorded by `updateSeedYaml` is the tracking
channel with every occurrence of `latest/` removed
(`strings.Replace(…, "latest/", "", -1)`): a leading `latest/` is stripped
(and the replacement continues on the remainder), and a channel containing
no `latest/` at all is recorded unchanged. -/
theorem claimC8_amended :
    (∀ cs : List CurrentSnap,
      (updateSeedYamlEntries cs).map (fun e => e.channel)
        = cs.map (fun s => String.mk (stripLatest s.trackingChannel.toList))) ∧
    (∀ t : List Char, stripLatest (latestSlash ++ t) = stripLatest t) ∧
    (∀ t : List Char, ¬ (latestSlash <:+: t) → stripLatest t = t) := by
  refine ⟨?_, ?_, ?_⟩
  · intro cs
    simp [updateSeedYamlEntries]
  · intro t
    rfl
  · intro t h
    induction t with
    | nil => rfl
    | cons c rest ih =>
      have hrest : ¬ (latestSlash <:+: rest) := fun hr => h (List.infix_cons hr)
      rw [stripLatest.eq_def]
      split
      · next rest1 heq =>
        exfalso
        apply h
        rw [heq]
        exact (List.prefix_append latestSlash rest1).isInfix
      · next cc restc hne heq =>
        injection heq with h1 h2
        subst h1
        subst h2
        rw [ih hrest]
      · next heq =>
        exact absurd heq (by simp)

theorem claimC8_amended_witness :
    stripLatest (("stable").toList) = ("stable").toList :=
  claimC8_amended.2.2 (("stable").toList) (by decide)

/-- Concrete progress trace for C9: one snap of total size 100; the first
download attempt streams 100 bytes and fails, the retry streams another
100 bytes through the same meter (`downloadSnap` retries up to 5 times and
`globalDownloaded` is never reset). -/
def c9Trace : GlobalProgress :=
  let pm0 : ProgressMeter :=
    { currentBytes := 0, isDelta := false, snapName := "hello",
      snapVersion := "2.10", totalSize := 100 }
  let g0 : GlobalProgress := { globalDownloaded := 0, lastReported := 0, output := [] }
  let r1 := meterWrite 100 pm0 g0 100
  (meterWrite 100 r1.1 r1.2 100).2

/-- C9: refuted on the code — after a failed attempt is retried, the bytes
are double-counted and `reportGlobalProgress` prints percentage 170, which
exceeds 100 (the code's own comment promises a 10–90 range, so this is a
bug in `reportGlobalProgress`, which applies no clamp, unlike
`calculatePercentage`). -/
theorem claimC9_percentageOverflow :
    c9Trace.output
      = [(90, "Downloading snap hello 2.10"), (170, "Downloading snap hello 2.10")] ∧
    ∃ p ∈ c9Trace.output, 100 < p.1 := by
  have hout : c9Trace.output
      = [(90, "Downloading snap hello 2.10"), (170, "Downloading snap hello 2.10")] := by
    norm_num [c9Trace, meterWrite, reportGlobalProgress, goTruncQ]
    rfl
  refine ⟨hout, ?_⟩
  rw [hout]
  decide

theorem lookupH_eraseKey_self (hs : List (String × HeaderValue)) (k : String) :
    lookupH (eraseKey hs k) k = none := by
  induction hs with
  | nil => rfl
  | cons p rest ih =>
    by_cases h : p.1 = k
    · simpa [eraseKey, List.filter_cons, h] using ih
    · simpa [eraseKey, List.filter_cons, lookupH, List.find?, h] using ih

theorem goZero_le_threshold : goZeroTimeSecs ≤ rfcThreshold := by decide

theorem mem_markTrue_self (ns : List String) (n : String) : n ∈ markTrue ns n := by
  by_cases hm : n ∈ ns <;> simp [markTrue, hm]

/-- C6 counterexample: a `snap-revision` assertion whose timestamp header
is the unparseable string `invalid` — `time.Parse` fails and the ignored
error leaves the zero time, which is ≤ the threshold, so the code strips
`provenance`; the claim ("omitted exactly when the timestamp parses to a
time ≤ 2023-12-09") requires it to be emitted here. -/
theorem claimC6_counterexample :
    goParseRFC3339 ("invalid") = none ∧
    lookupH
        [("type", HeaderValue.str "snap-revision"),
         ("timestamp", HeaderValue.str "invalid"),
         ("provenance", HeaderValue.str "prov")] ("provenance")
      = some (HeaderValue.str "prov") ∧
    writeAssertion ("snap-revision")
        { headers := [("type", HeaderValue.str "snap-revision"),
                      ("timestamp", HeaderValue.str "invalid"),
                      ("provenance", HeaderValue.str "prov")],
          body := "", signature := "SIG" }
      = some ("type: snap-revision\ntimestamp: invalid\n\nSIG") ∧
    strContains ("type: snap-revision\ntimestamp: invalid\n\nSIG") ("provenance") = false := by
  refine ⟨by decide, by decide, by decide, by decide⟩

/-- C6 (amended): `writeAssertion` omits the `provenance` header of a
`snap-revision` assertion exactly when the `timestamp` header is present
and either fails to parse as RFC3339 (the ignored error leaves Go's zero
time) or parses to an instant ≤ 2023-12-09T00:00:00Z; for a timestamp
parsing strictly after that instant a present, non-empty `provenance` is
emitted. -/
theorem claimC6_amended :
    ∀ (a : Assertion) (ts prov : String),
      lookupH a.headers ("timestamp") = some (HeaderValue.str ts) →
      lookupH a.headers ("provenance") = some (HeaderValue.str prov) →
      prov ≠ "" →
      ((match goParseRFC3339 ts with
        | none => True
        | some q => q ≤ rfcThreshold) →
        writeAssertion ("snap-revision") a
          = some (writeAssertionCore ("snap-revision") a.body.length
              (eraseKey a.headers ("provenance")) a.body a.signature) ∧
        ("provenance") ∉ emittedHeaderKeys ("snap-revision") a.body.length
              (eraseKey a.headers ("provenance"))) ∧
      ((match goParseRFC3339 ts with
        | none => False
        | some q => rfcThreshold < q) →
        writeAssertion ("snap-revision") a
          = some (writeAssertionCore ("snap-revision") a.body.length a.headers a.body a.signature) ∧
        ("provenance") ∈ emittedHeaderKeys ("snap-revision") a.body.length a.headers) := by
  intro a ts prov hts hprov hne
  constructor
  · intro hc
    have hle : (goParseRFC3339 ts).getD goZeroTimeSecs ≤ rfcThreshold := by
      cases hp : goParseRFC3339 ts with
      | none => simpa using goZero_le_threshold
      | some q =>
        simp only [hp] at hc
        simpa using hc
    refine ⟨by simp [writeAssertion, hts, hle], ?_⟩
    intro hmem
    have hs := (List.mem_filter.mp hmem).2
    simp [emitHeader, lookupH_eraseKey_self] at hs
  · intro hc
    obtain ⟨q, hq, hlt⟩ : ∃ q, goParseRFC3339 ts = some q ∧ rfcThreshold < q := by
      cases hp : goParseRFC3339 ts with
      | none => simp only [hp] at hc
      | some q =>
        simp only [hp] at hc
        exact ⟨q, rfl, hc⟩
    have hnle : ¬ ((goParseRFC3339 ts).getD goZeroTimeSecs ≤ rfcThreshold) := by
      rw [hq]
      simpa using not_le.mpr hlt
    refine ⟨by simp [writeAssertion, hts, hnle], ?_⟩
    refine List.mem_filter.mpr ⟨by decide, ?_⟩
    have hv : HeaderValue.str prov ≠ HeaderValue.str "" := by
      intro h
      exact hne (by injection h)
    simp [emitHeader, hprov, hv]

unseal Rat.add Rat.sub in
theorem claimC6_amended_witness :
    writeAssertion ("snap-revision")
        { headers := [("type", HeaderValue.str "snap-revision"),
                      ("timestamp", HeaderValue.str "2024-01-01T00:00:00Z"),
                      ("provenance", HeaderValue.str "prov")],
          body := "", signature := "SIG" }
      = some (writeAssertionCore ("snap-revision") (("").length)
          [("type", HeaderValue.str "snap-revision"),
           ("timestamp", HeaderValue.str "2024-01-01T00:00:00Z"),
           ("provenance", HeaderValue.str "prov")] ("") ("SIG")) ∧
    ("provenance") ∈ emittedHeaderKeys ("snap-revision") (("").length)
        [("type", HeaderValue.str "snap-revision"),
         ("timestamp", HeaderValue.str "2024-01-01T00:00:00Z"),
         ("provenance", HeaderValue.str "prov")] :=
  (claimC6_amended
    { headers := [("type", HeaderValue.str "snap-revision"),
                  ("timestamp", HeaderValue.str "2024-01-01T00:00:00Z"),
                  ("provenance", HeaderValue.str "prov")],
      body := "", signature := "SIG" }
    ("2024-01-01T00:00:00Z") ("prov") (by decide) (by decide) (by decide)).2
    (by
      rw [show goParseRFC3339 ("2024-01-01T00:00:00Z") = some (((1704067200 : Int)) : ℚ) from
        by decide]
      show rfcThreshold < (((1704067200 : Int)) : ℚ)
      decide)

/-- C2: in `collectSnapDependencies`, after a successful store call for a
snap, a work item for that snap is appended iff no previous snap file was
found on disk or the previous revision is strictly below the store's
revision; otherwise no work item is emitted and the snap's name is marked
`true` in `requiredSnaps` (and the work item, when emitted, is exactly the
snap's own `SnapDetails`, leaving `requiredSnaps` untouched). -/
theorem claimC2_workItemIff :
    ∀ (st : ResolverState) (snapName channel : String)
      (old : Option (String × CurrentSnap)) (info : StoreInfo)
      (st2 : ResolverState) (work : List SnapDetails),
      collectStep st snapName channel old { info := some info } = Except.ok (st2, work) →
      ((work ≠ []
          ↔ (old = none
             ∨ ∃ p c, old = some (p, c) ∧ (p = "" ∨ c.revisionN < info.revisionN))) ∧
       (work = [] →
          snapName ∈ st2.requiredSnaps
          ∧ st2.requiredSnaps = markTrue st.requiredSnaps snapName) ∧
       (work ≠ [] →
          work = [{ instanceName := snapName, channel := channel,
                    currentSnap := { instanceName := snapName, snapID := info.snapID,
                                     revisionN := info.revisionN, trackingChannel := "" },
                    result := { info := some info } }]
          ∧ st2.requiredSnaps = st.requiredSnaps)) := by
  intro st snapName channel old info st2 work h
  by_cases hvalid : info.snapID = "" ∨ info.revisionN = 0
  · rw [collectStep] at h
    simp [hvalid] at h
  · rw [collectStep] at h
    simp only [if_neg hvalid] at h
    cases old with
    | none =>
      simp only [if_true, Except.ok.injEq, Prod.mk.injEq] at h
      obtain ⟨hst2, hwork⟩ := h
      subst hst2
      subst hwork
      refine ⟨by simp, by simp, fun _ => ⟨rfl, rfl⟩⟩
    | some pc =>
      obtain ⟨p, c⟩ := pc
      by_cases hnu : (p == "" || decide (c.revisionN < info.revisionN)) = true
      · simp only [hnu, eq_self_iff_true, if_true, Except.ok.injEq, Prod.mk.injEq] at h
        obtain ⟨hst2, hwork⟩ := h
        subst hst2
        subst hwork
        refine ⟨?_, by simp, fun _ => ⟨rfl, rfl⟩⟩
        simp only [ne_eq, List.cons_ne_nil, not_false_iff, true_iff]
        right
        refine ⟨p, c, rfl, ?_⟩
        simpa using hnu
      · have hnu2 : (p == "" || decide (c.revisionN < info.revisionN)) = false := by
          revert hnu
          cases p == "" || decide (c.revisionN < info.revisionN) <;> simp
        simp only [hnu2, Bool.false_eq_true, if_false, Except.ok.injEq, Prod.mk.injEq] at h
        obtain ⟨hst2, hwork⟩ := h
        subst hst2
        subst hwork
        refine ⟨?_, fun _ => ⟨mem_markTrue_self _ _, rfl⟩, by simp⟩
        simp only [ne_eq, not_true, false_iff]
        intro hcond
        rcases hcond with hnone | ⟨p2, c2, heq, hor⟩
        · exact Option.noConfusion hnone
        · injection heq with heq2
          injection heq2 with hp hc
          subst hp
          subst hc
          apply hnu
          simpa using hor

/-- Initial resolver state for the C2 witness. -/
def c2St0 : ResolverState := { currentSnaps := [], requiredSnaps := [], processedSnaps := [] }

/-- Store info for the C2 witness. -/
def c2Info : StoreInfo := { snapID := "id", revisionN := 3, base := "" }

/-- Resulting state for the C2 witness. -/
def c2St2 : ResolverState :=
  { currentSnaps := [{ instanceName := "hello", snapID := "id", revisionN := 3,
                       trackingChannel := "" }],
    requiredSnaps := [], processedSnaps := ["hello"] }

/-- Resulting work list for the C2 witness. -/
def c2Work : List SnapDetails :=
  [{ instanceName := "hello", channel := "ch",
     currentSnap := { instanceName := "hello", snapID := "id", revisionN := 3,
                      trackingChannel := "" },
     result := { info := some c2Info } }]

theorem claimC2_witness :
    (c2Work ≠ []
      ↔ ((none : Option (String × CurrentSnap)) = none
         ∨ ∃ p c, (none : Option (String × CurrentSnap)) = some (p, c)
             ∧ (p = "" ∨ c.revisionN < c2Info.revisionN))) ∧
    (c2Work = [] →
      ("hello") ∈ c2St2.requiredSnaps
      ∧ c2St2.requiredSnaps = markTrue c2St0.requiredSnaps ("hello")) ∧
    (c2Work ≠ [] →
      c2Work = [{ instanceName := "hello", channel := "ch",
                  currentSnap := { instanceName := "hello", snapID := c2Info.snapID,
                                   revisionN := c2Info.revisionN, trackingChannel := "" },
                  result := { info := some c2Info } }]
      ∧ c2St2.requiredSnaps = c2St0.requiredSnaps) :=
  claimC2_workItemIff c2St0 ("hello") ("ch") none c2Info c2St2 c2Work (by rfl)

/-- C5: when the fetched `account` assertion carries `username: canonical`,
`writeAssertion` emits nothing for it, and the `.assert` file produced by
`downloadAssertions` consists of the `account-key`, `snap-declaration` and
`snap-revision` blocks with no `account` block. -/
theorem claimC5_canonicalAccountSkipped :
    ∀ (fetch : FetchEnv) (info : SnapInfo)
      (decl accountKeyA acct rev : Assertion) (signKey : String)
      (bytes : List Nat) (s1 s3 s4 : String),
      fetch ("snap-declaration") ["16", info.snapID] = Except.ok decl →
      getStrHeader decl.headers ("sign-key-sha3-384") = some signKey →
      signKey ≠ "" →
      fetch ("account-key") [signKey] = Except.ok accountKeyA →
      fetch ("account") [info.publisherID] = Except.ok acct →
      goHexDecode info.sha3_384.toList = some bytes →
      fetch ("snap-revision") [String.mk (goBase64RawURL bytes) ++ ("/")] = Except.ok rev →
      lookupH acct.headers ("username") = some (HeaderValue.str "canonical") →
      writeAssertion ("account-key") accountKeyA = some s1 →
      writeAssertion ("snap-declaration") decl = some s3 →
      writeAssertion ("snap-revision") rev = some s4 →
      writeAssertion ("account") acct = some "" ∧
      downloadAssertions fetch info true = some (Except.ok (s1 ++ s3 ++ s4)) := by
  intro fetch info decl accountKeyA acct rev signKey bytes s1 s3 s4
  intro h1 h2 h3 h4 h5 h6 h7 h8 hw1 hw3 hw4
  have hacct : writeAssertion ("account") acct = some "" := by
    rw [writeAssertion]
    simp [h8]
  refine ⟨hacct, ?_⟩
  rw [downloadAssertions]
  simp only [Bool.not_true, if_false, h1, h2, if_neg h3, h4, h5, h6, h7, hw1, hacct, hw3, hw4]
  simp [Option.bind]

/-- Snap-declaration fixture shared by the assertion-writer witnesses. -/
def c5Decl : Assertion :=
  { headers := [("type", HeaderValue.str "snap-declaration"),
                ("sign-key-sha3-384", HeaderValue.str "SK")],
    body := "", signature := "SIGD" }

/-- Account-key fixture shared by the assertion-writer witnesses. -/
def c5AK : Assertion :=
  { headers := [("type", HeaderValue.str "account-key")], body := "", signature := "SIGK" }

/-- Canonical account fixture for the C5 witness. -/
def c5Acct : Assertion :=
  { headers := [("type", HeaderValue.str "account"),
                ("username", HeaderValue.str "canonical")],
    body := "", signature := "SIGA" }

/-- Snap-revision fixture shared by the assertion-writer witnesses. -/
def c5Rev : Assertion :=
  { headers := [("type", HeaderValue.str "snap-revision")], body := "", signature := "SIGR" }

/-- Fetcher fixture answering every assertion request, for the C5 witness. -/
def c5Fetch : FetchEnv := fun t _keys =>
  if t = "snap-declaration" then Except.ok c5Decl
  else if t = "account-key" then Except.ok c5AK
  else if t = "account" then Except.ok c5Acct
  else Except.ok c5Rev

/-- Snap-info fixture shared by the assertion-writer witnesses (its empty
`sha3_384` hex-decodes to the empty byte string). -/
def c5Info : SnapInfo :=
  { suggestedName := "hello", revisionN := 3, sha3_384 := "", snapID := "sid",
    publisherID := "pub" }

theorem claimC5_witness :
    writeAssertion ("account") c5Acct = some "" ∧
    downloadAssertions c5Fetch c5Info true
      = some (Except.ok (("type: account-key\n\nSIGK\n")
          ++ ("type: snap-declaration\nsign-key-sha3-384: SK\n\nSIGD\n")
          ++ ("type: snap-revision\n\nSIGR"))) :=
  claimC5_canonicalAccountSkipped c5Fetch c5Info c5Decl c5AK c5Acct c5Rev ("SK") []
    ("type: account-key\n\nSIGK\n")
    ("type: snap-declaration\nsign-key-sha3-384: SK\n\nSIGD\n")
    ("type: snap-revision\n\nSIGR")
    (by rfl) (by rfl) (by decide) (by rfl) (by rfl) (by rfl) (by rfl) (by rfl)
    (by rfl) (by rfl) (by rfl)

/-- Whether `writeAssertion`'s header loop keeps `key`: present in the map
with a value other than the empty string. -/
def headerKeptB (headers : List (String × HeaderValue)) (key : String) : Bool :=
  match lookupH headers key with
  | none => false
  | some v => if v = HeaderValue.str "" then false else true

/-- C1: on the success path, the `.assert` file written by
`downloadAssertions` is the concatenation, in this order, of the
`account-key`, `account`, `snap-declaration` and `snap-revision` blocks
produced by `writeAssertion`; and within any one assertion the emitted
header keys are exactly the keys of the per-type `fieldOrder` table that
are present with a non-empty value, in the table's order. -/
theorem claimC1_orderOfAssertions :
    (∀ (fetch : FetchEnv) (info : SnapInfo)
       (decl accountKeyA acct rev : Assertion) (signKey : String)
       (bytes : List Nat) (s1 s2 s3 s4 : String),
       fetch ("snap-declaration") ["16", info.snapID] = Except.ok decl →
       getStrHeader decl.headers ("sign-key-sha3-384") = some signKey →
       signKey ≠ "" →
       fetch ("account-key") [signKey] = Except.ok accountKeyA →
       fetch ("account") [info.publisherID] = Except.ok acct →
       goHexDecode info.sha3_384.toList = some bytes →
       fetch ("snap-revision") [String.mk (goBase64RawURL bytes) ++ ("/")] = Except.ok rev →
       writeAssertion ("account-key") accountKeyA = some s1 →
       writeAssertion ("account") acct = some s2 →
       writeAssertion ("snap-declaration") decl = some s3 →
       writeAssertion ("snap-revision") rev = some s4 →
       downloadAssertions fetch info true = some (Except.ok (s1 ++ s2 ++ s3 ++ s4))) ∧
    (∀ (t : String) (bl : Nat) (hs : List (String × HeaderValue)),
       emittedHeaderKeys t bl hs = (fieldOrder t).filter (headerKeptB hs)) := by
  constructor
  · intro fetch info decl accountKeyA acct rev signKey bytes s1 s2 s3 s4
    intro h1 h2 h3 h4 h5 h6 h7 hw1 hw2 hw3 hw4
    rw [downloadAssertions]
    simp only [Bool.not_true, if_false, h1, h2, if_neg h3, h4, h5, h6, h7, hw1, hw2, hw3, hw4]
    simp [Option.bind]
  · intro t bl hs
    rw [emittedHeaderKeys]
    refine List.filter_congr ?_
    intro k _
    rw [emitHeader, headerKeptB]
    cases lookupH hs k with
    | none => rfl
    | some v => by_cases hv : v = HeaderValue.str "" <;> simp [hv]

/-- Non-canonical account fixture for the C1 witness. -/
def c1Acct : Assertion :=
  { headers := [("type", HeaderValue.str "account"),
                ("username", HeaderValue.str "bob")],
    body := "", signature := "SIGA" }

/-- Fetcher fixture for the C1 witness (non-canonical publisher). -/
def c1Fetch : FetchEnv := fun t _keys =>
  if t = "snap-declaration" then Except.ok c5Decl
  else if t = "account-key" then Except.ok c5AK
  else if t = "account" then Except.ok c1Acct
  else Except.ok c5Rev

theorem claimC1_witness :
    downloadAssertions c1Fetch c5Info true
      = some (Except.ok (("type: account-key\n\nSIGK\n")
          ++ ("type: account\nusername: bob\n\nSIGA\n")
          ++ ("type: snap-declaration\nsign-key-sha3-384: SK\n\nSIGD\n")
          ++ ("type: snap-revision\n\nSIGR"))) :=
  claimC1_orderOfAssertions.1 c1Fetch c5Info
    c5Decl c5AK c1Acct c5Rev ("SK") []
    ("type: account-key\n\nSIGK\n")
    ("type: account\nusername: bob\n\nSIGA\n")
    ("type: snap-declaration\nsign-key-sha3-384: SK\n\nSIGD\n")
    ("type: snap-revision\n\nSIGR")
    (by rfl) (by rfl) (by decide) (by rfl) (by rfl) (by rfl) (by rfl)
    (by rfl) (by rfl) (by rfl) (by rfl)

/-- C4: `downloadAssertions` fails exactly on a failed file creation, a
failed `snap-declaration`, `account-key` or `account` fetch, or an
undecodable sha3-384 hex string; a failed `snap-revision` fetch is
non-fatal and merely omits that block from the emitted file.  (The fetched
snap-declaration is assumed to carry a non-empty string
`sign-key-sha3-384` header, which the snapd asserts library guarantees for
every decoded assertion.) -/
theorem claimC4_errorPolicy :
    (∀ (fetch : FetchEnv) (info : SnapInfo),
       downloadAssertions fetch info false
         = some (Except.error ("failed to create assertions file"))) ∧
    (∀ (fetch : FetchEnv) (info : SnapInfo) (e : String),
       fetch ("snap-declaration") ["16", info.snapID] = Except.error e →
       downloadAssertions fetch info true
         = some (Except.error (("failed to fetch snap-declaration assertion for snap ")
             ++ info.suggestedName ++ (": ") ++ e))) ∧
    (∀ (fetch : FetchEnv) (info : SnapInfo) (decl : Assertion) (signKey e : String),
       fetch ("snap-declaration") ["16", info.snapID] = Except.ok decl →
       getStrHeader decl.headers ("sign-key-sha3-384") = some signKey →
       signKey ≠ "" →
       fetch ("account-key") [signKey] = Except.error e →
       downloadAssertions fetch info true
         = some (Except.error (("failed to fetch account-key assertion for snap ")
             ++ info.suggestedName ++ (": ") ++ e))) ∧
    (∀ (fetch : FetchEnv) (info : SnapInfo) (decl accountKeyA : Assertion) (signKey e : String),
       fetch ("snap-declaration") ["16", info.snapID] = Except.ok decl →
       getStrHeader decl.headers ("sign-key-sha3-384") = some signKey →
       signKey ≠ "" →
       fetch ("account-key") [signKey] = Except.ok accountKeyA →
       fetch ("account") [info.publisherID] = Except.error e →
       downloadAssertions fetch info true
         = some (Except.error (("failed to fetch account assertion for snap ")
             ++ info.suggestedName ++ (": ") ++ e))) ∧
    (∀ (fetch : FetchEnv) (info : SnapInfo) (decl accountKeyA acct : Assertion) (signKey : String),
       fetch ("snap-declaration") ["16", info.snapID] = Except.ok decl →
       getStrHeader decl.headers ("sign-key-sha3-384") = some signKey →
       signKey ≠ "" →
       fetch ("account-key") [signKey] = Except.ok accountKeyA →
       fetch ("account") [info.publisherID] = Except.ok acct →
       goHexDecode info.sha3_384.toList = none →
       downloadAssertions fetch info true
         = some (Except.error (("error decoding SHA3-384 hex string for snap ")
             ++ info.suggestedName))) ∧
    (∀ (fetch : FetchEnv) (info : SnapInfo) (decl accountKeyA acct : Assertion)
       (signKey e : String) (bytes : List Nat) (s1 s2 s3 : String),
       fetch ("snap-declaration") ["16", info.snapID] = Except.ok decl →
       getStrHeader decl.headers ("sign-key-sha3-384") = some signKey →
       signKey ≠ "" →
       fetch ("account-key") [signKey] = Except.ok accountKeyA →
       fetch ("account") [info.publisherID] = Except.ok acct →
       goHexDecode info.sha3_384.toList = some bytes →
       fetch ("snap-revision") [String.mk (goBase64RawURL bytes) ++ ("/")] = Except.error e →
       writeAssertion ("account-key") accountKeyA = some s1 →
       writeAssertion ("account") acct = some s2 →
       writeAssertion ("snap-declaration") decl = some s3 →
       downloadAssertions fetch info true = some (Except.ok (s1 ++ s2 ++ s3))) ∧
    (∀ (fetch : FetchEnv) (info : SnapInfo) (decl accountKeyA acct rev : Assertion)
       (signKey : String) (bytes : List Nat) (s1 s2 s3 s4 : String),
       fetch ("snap-declaration") ["16", info.snapID] = Except.ok decl →
       getStrHeader decl.headers ("sign-key-sha3-384") = some signKey →
       signKey ≠ "" →
       fetch ("account-key") [signKey] = Except.ok accountKeyA →
       fetch ("account") [info.publisherID] = Except.ok acct →
       goHexDecode info.sha3_384.toList = some bytes →
       fetch ("snap-revision") [String.mk (goBase64RawURL bytes) ++ ("/")] = Except.ok rev →
       writeAssertion ("account-key") accountKeyA = some s1 →
       writeAssertion ("account") acct = some s2 →
       writeAssertion ("snap-declaration") decl = some s3 →
       writeAssertion ("snap-revision") rev = some s4 →
       downloadAssertions fetch info true = some (Except.ok (s1 ++ s2 ++ s3 ++ s4))) := by
  refine ⟨?_, ?_, ?_, ?_, ?_, ?_, ?_⟩
  · intro fetch info
    rw [downloadAssertions]
    simp
  · intro fetch info e h1
    rw [downloadAssertions]
    simp only [Bool.not_true, if_false, h1]
    simp
  · intro fetch info decl signKey e h1 h2 h3 h4
    rw [downloadAssertions]
    simp only [Bool.not_true, if_false, h1, h2, if_neg h3, h4]
    simp
  · intro fetch info decl accountKeyA signKey e h1 h2 h3 h4 h5
    rw [downloadAssertions]
    simp only [Bool.not_true, if_false, h1, h2, if_neg h3, h4, h5]
    simp
  · intro fetch info decl accountKeyA acct signKey h1 h2 h3 h4 h5 h6
    rw [downloadAssertions]
    simp only [Bool.not_true, if_false, h1, h2, if_neg h3, h4, h5, h6]
    simp
  · intro fetch info decl accountKeyA acct signKey e bytes s1 s2 s3
    intro h1 h2 h3 h4 h5 h6 h7 hw1 hw2 hw3
    rw [downloadAssertions]
    simp only [Bool.not_true, if_false, h1, h2, if_neg h3, h4, h5, h6, h7, hw1, hw2, hw3]
    simp [Option.bind]
  · intro fetch info decl accountKeyA acct rev signKey bytes s1 s2 s3 s4
    intro h1 h2 h3 h4 h5 h6 h7 hw1 hw2 hw3 hw4
    rw [downloadAssertions]
    simp only [Bool.not_true, if_false, h1, h2, if_neg h3, h4, h5, h6, h7, hw1, hw2, hw3, hw4]
    simp [Option.bind]

/-- Fetcher fixture for the C4 witness: the `snap-revision` fetch fails,
every other fetch succeeds. -/
def c4Fetch : FetchEnv := fun t _keys =>
  if t = "snap-declaration" then Except.ok c5Decl
  else if t = "account-key" then Except.ok c5AK
  else if t = "account" then Except.ok c1Acct
  else Except.error ("store unavailable")

theorem claimC4_witness :
    downloadAssertions c4Fetch c5Info true
      = some (Except.ok (("type: account-key\n\nSIGK\n")
          ++ ("type: account\nusername: bob\n\nSIGA\n")
          ++ ("type: snap-declaration\nsign-key-sha3-384: SK\n\nSIGD\n"))) :=
  claimC4_errorPolicy.2.2.2.2.2.1 c4Fetch c5Info c5Decl c5AK c1Acct ("SK")
    ("store unavailable") []
    ("type: account-key\n\nSIGK\n")
    ("type: account\nusername: bob\n\nSIGA\n")
    ("type: snap-declaration\nsign-key-sha3-384: SK\n\nSIGD\n")
    (by rfl) (by rfl) (by decide) (by rfl) (by rfl) (by rfl) (by rfl)
    (by rfl) (by rfl) (by rfl)

theorem fetchOrRefresh_err_install (env : StoreEnv) (n ch e : String)
    (h : env none ch = Except.error e) :
    fetchOrRefreshSnapInfo env n none ch = Except.error (wrapMsg n e) := by
  rw [fetchOrRefreshSnapInfo, h]
  simp

theorem fetchOrRefresh_err_refresh (env : StoreEnv) (n ch e : String) (c : CurrentSnap)
    (h : env (some c) ch = Except.error e) :
    fetchOrRefreshSnapInfo env n (some c) ch
      = (if strContains e noUpdateMsg then Except.error e
         else Except.error (wrapMsg n e)) := by
  rw [fetchOrRefreshSnapInfo, h]
  cases hnu : strContains e noUpdateMsg <;> simp [hnu]

/-- C3: the resolver's store-error recovery, end to end through the error
wrapping of `fetchOrRefreshSnapInfo`: a channel miss on a fresh install
retries the install on the fallback channel; `no updates` on a refresh
retries as an install on the same channel; a channel miss on a refresh
retries the refresh on the fallback channel and, when that answers `no
updates`, retries as an install on the fallback channel; any other store
error is returned as a failure (with the wrapping message), on both the
install and the refresh path. -/
theorem claimC3_recoveryRules :
    (∀ (env : StoreEnv) (n ch fb e : String),
       env none ch = Except.error e →
       strContains e channelMissMsg = true →
       resolveFetch env n ch fb none = fetchOrRefreshSnapInfo env n none fb) ∧
    (∀ (env : StoreEnv) (n ch fb e : String) (c : CurrentSnap),
       c.snapID ≠ "" → c.revisionN ≠ 0 →
       env (some c) ch = Except.error e →
       strContains e noUpdateMsg = true →
       resolveFetch env n ch fb (some c) = fetchOrRefreshSnapInfo env n none ch) ∧
    (∀ (env : StoreEnv) (n ch fb e : String) (c : CurrentSnap),
       c.snapID ≠ "" → c.revisionN ≠ 0 →
       env (some c) ch = Except.error e →
       strContains e channelMissMsg = true →
       strContains (wrapMsg n e) noUpdateMsg = false →
       resolveFetch env n ch fb (some c)
         = (match fetchOrRefreshSnapInfo env n (some c) fb with
            | Except.ok r => Except.ok r
            | Except.error e2 =>
              if strContains e2 noUpdateMsg then fetchOrRefreshSnapInfo env n none fb
              else Except.error e2)) ∧
    (∀ (env : StoreEnv) (n ch fb e : String),
       env none ch = Except.error e →
       strContains (wrapMsg n e) channelMissMsg = false →
       resolveFetch env n ch fb none = Except.error (wrapMsg n e)) ∧
    (∀ (env : StoreEnv) (n ch fb e : String) (c : CurrentSnap),
       c.snapID ≠ "" → c.revisionN ≠ 0 →
       env (some c) ch = Except.error e →
       strContains (wrapMsg n e) noUpdateMsg = false →
       strContains (wrapMsg n e) channelMissMsg = false →
       resolveFetch env n ch fb (some c) = Except.error (wrapMsg n e)) := by
  refine ⟨?_, ?_, ?_, ?_, ?_⟩
  · intro env n ch fb e h hcm
    rw [resolveFetch, resolveInstallFlow, fetchOrRefresh_err_install env n ch e h]
    simp [strContains_wrap hcm]
  · intro env n ch fb e c hid hrev h hnu
    rw [resolveFetch]
    simp only [if_neg (by simp [hid, hrev] : ¬(c.snapID = "" ∨ c.revisionN = 0))]
    rw [resolveRefreshFlow, fetchOrRefresh_err_refresh env n ch e c h, if_pos hnu]
    simp [hnu]
  · intro env n ch fb e c hid hrev h hcm hnw
    have hne : strContains e noUpdateMsg = false := strContains_wrap_neg hnw
    rw [resolveFetch]
    simp only [if_neg (by simp [hid, hrev] : ¬(c.snapID = "" ∨ c.revisionN = 0))]
    rw [resolveRefreshFlow, fetchOrRefresh_err_refresh env n ch e c h, if_neg (by simp [hne])]
    simp [hnw, strContains_wrap hcm]
  · intro env n ch fb e h hcm
    rw [resolveFetch, resolveInstallFlow, fetchOrRefresh_err_install env n ch e h]
    simp [hcm]
  · intro env n ch fb e c hid hrev h hnw hcm
    have hne : strContains e noUpdateMsg = false := strContains_wrap_neg hnw
    rw [resolveFetch]
    simp only [if_neg (by simp [hid, hrev] : ¬(c.snapID = "" ∨ c.revisionN = 0))]
    rw [resolveRefreshFlow, fetchOrRefresh_err_refresh env n ch e c h, if_neg (by simp [hne])]
    simp [hnw, hcm]

/-- Previous-snap fixture for the C3 witness. -/
def c3Old : CurrentSnap :=
  { instanceName := "hello", snapID := "sid", revisionN := 2, trackingChannel := "" }

/-- Store fixture for the C3 witness: the requested channel misses, the
fallback refresh answers `no updates`, the fallback install succeeds. -/
def c3Env : StoreEnv := fun cur ch =>
  if ch = "fb" then
    (match cur with
     | some _ => Except.error noUpdateMsg
     | none => Except.ok [{ info := some { snapID := "sid", revisionN := 7, base := "" } }])
  else Except.error channelMissMsg

theorem claimC3_witness :
    resolveFetch c3Env ("hello") ("ch") ("fb") (some c3Old)
      = (match fetchOrRefreshSnapInfo c3Env ("hello") (some c3Old) ("fb") with
         | Except.ok r => Except.ok r
         | Except.error e2 =>
           if strContains e2 noUpdateMsg then fetchOrRefreshSnapInfo c3Env ("hello") none ("fb")
           else Except.error e2) :=
  claimC3_recoveryRules.2.2.1 c3Env ("hello") ("ch") ("fb") channelMissMsg c3Old
    (by decide) (by decide) (by rfl) (by decide) (by decide)

end SnapdSeedGlue
